import Mathlib

/-!
Shallow embedding of `src/Hooks/useSpeechToText.tsx` from
orizens/react-speech-to-text.

The hook is event-driven glue: React state plus handlers wired to the
native speech-recognition engine, to the hark voice-activity detector and
to the recorder helpers.  We embed it as explicit state passing: each
handler is a function from the hook state to a new state paired with the
list of external actions it performs (starting the recognizer, stopping
the audio track, scheduling or clearing the timeout, calling
`stopRecording`, issuing the cloud fetch, restarting the recording).
JavaScript optional props are `Option` values with explicit truthiness.
-/

namespace SpeechToText

/-- Hook options (`UseSpeechToTextTypes`): all props are optional in the
source, so each is an `Option`. -/
structure Config where
  continuous : Option Bool
  crossBrowser : Option Bool
  googleApiKey : Option String
  timeout : Option Nat
  deriving DecidableEq

/-- JavaScript truthiness of an optional boolean prop
(`continuous || false`, `if (!crossBrowser)`). -/
def truthyBool : Option Bool → Bool
  | some b => b
  | none => false

/-- JavaScript truthiness of an optional number prop (`if (timeout)`):
`undefined` and `0` are falsy. -/
def truthyNat : Option Nat → Bool
  | some n => n != 0
  | none => false

/-- Browser environment the module observes: whether the native
`SpeechRecognition` object was constructed (`!isEdgeChromium &&
SpeechRecognition`), whether `navigator.mediaDevices.getUserMedia`
exists, and the audio context's sample rate (`none` when no audio
context is present). -/
structure Env where
  recognitionAvailable : Bool
  getUserMediaSupported : Bool
  sampleRate : Option Nat
  deriving DecidableEq

/-- One alternative inside a recognition result (`{ transcript }`). -/
structure RecognitionAlternative where
  transcript : String
  deriving DecidableEq

/-- One recognition result: a list of alternatives. -/
structure RecognitionResult where
  alternatives : List RecognitionAlternative
  deriving DecidableEq

/-- Parsed body of the cloud response (`googleCloudJson`): the `results`
field may be absent (`googleCloudJson.results?.`). -/
structure CloudResponse where
  results : Option (List RecognitionResult)
  deriving DecidableEq

/-- The `config` object of the request body built in
`handleBlobToBase64` (lines 195-199). -/
structure CloudRequestConfig where
  encoding : String
  languageCode : String
  sampleRateHertz : Option Nat
  deriving DecidableEq

/-- The request sent to the cloud endpoint: its `config`, the base64
audio content, and the API key interpolated into the URL. -/
structure CloudRequest where
  config : CloudRequestConfig
  audioContent : List Char
  apiKey : Option String
  deriving DecidableEq

/-- React state and refs of the hook: `isRecording`, `results`, `error`,
whether `timeoutId.current` holds a pending timeout, and whether
`mediaStream.current` holds a stream. -/
structure HookState where
  isRecording : Bool
  results : List String
  error : String
  timeoutScheduled : Bool
  hasMediaStream : Bool
  deriving DecidableEq

/-- External actions a handler performs, in order. -/
inductive Action where
  | acquireStream
  | scheduleTimeout (delay : Nat)
  | clearRecordingTimeout
  | trackStop
  | stopRecordingCall (exportWAV : Bool) (wavCallbackContinuous : Option Bool)
  | recognitionStart
  | recognitionStop
  | fetchCloud (req : CloudRequest)
  | restartRecording
  deriving DecidableEq

/-- The mount effect (lines 48-60): two sequential `setError` calls,
each guarded; the later write overwrites the earlier one. -/
def mountEffect (cfg : Config) (env : Env) (s : HookState) : HookState :=
  let s1 :=
    if truthyBool cfg.crossBrowser = false ∧ env.recognitionAvailable = false then
      { s with error := "Speech Recognition API is only available on Chrome" }
    else s
  if env.getUserMediaSupported = false then
    { s1 with error := "getUserMedia is not supported on this device/browser :(" }
  else s1

/-- `chromeSpeechRecognition` (lines 64-90): guarded by `if (recognition)`;
starts the recognizer and installs its handlers (modelled separately). -/
def chromeSpeechRecognition (env : Env) (s : HookState) : HookState × List Action :=
  if env.recognitionAvailable then (s, [Action.recognitionStart]) else (s, [])

/-- `recognition.onresult` (lines 73-80): appends the first alternative of
the last result of the event.  Absent pieces are read as defaults. -/
def recognitionOnResult (eventResults : Option (List RecognitionResult))
    (s : HookState) : HookState :=
  match eventResults with
  | some rs =>
    { s with results := s.results ++
        [((rs.getLastD { alternatives := [] }).alternatives.headD
            { transcript := "" }).transcript] }
  | none => s

/-- `recognition.onaudiostart` (line 82). -/
def recognitionOnAudioStart (s : HookState) : HookState :=
  { s with isRecording := true }

/-- `recognition.onaudioend` (lines 86-88). -/
def recognitionOnAudioEnd (s : HookState) : HookState :=
  { s with isRecording := false }

/-- The `errHandler` closure passed to `startRecording` (line 103). -/
def micPermissionDeniedHandler (s : HookState) : HookState :=
  { s with error := "Microphone permission was denied" }

/-- `handleRecordingTimeout` (lines 164-170): schedules the auto-stop and
stores the timer id in `timeoutId.current`. -/
def handleRecordingTimeout (cfg : Config) (s : HookState) : HookState × List Action :=
  ({ s with timeoutScheduled := true }, [Action.scheduleTimeout (cfg.timeout.getD 0)])

/-- The callback inside `handleRecordingTimeout` (lines 165-169), run when
the scheduled timer fires: stop recording state, stop the track, and call
`stopRecording` with `exportWAV: false` and no callback. -/
def recordingTimeoutCallback (s : HookState) : HookState × List Action :=
  ({ s with isRecording := false, timeoutScheduled := false },
   (if s.hasMediaStream then [Action.trackStop] else []) ++
     [Action.stopRecordingCall false none])

/-- The hark `speaking` handler (lines 124-129): clears the pending
recording timeout. -/
def speakingHandler (s : HookState) : HookState × List Action :=
  ({ s with timeoutScheduled := false }, [Action.clearRecordingTimeout])

/-- The hark `stopped_speaking` handler (lines 131-146): clears the
recording flag, stops the first audio track of the current stream, and
calls `stopRecording` with `exportWAV: true` and a callback that forwards
`continuous || false` to `handleBlobToBase64`. -/
def stoppedSpeakingHandler (cfg : Config) (s : HookState) : HookState × List Action :=
  ({ s with isRecording := false },
   (if s.hasMediaStream then [Action.trackStop] else []) ++
     [Action.stopRecordingCall true (some (truthyBool cfg.continuous))])

/-- `startSpeechToText` (lines 92-149).  `micPermissionGranted` models the
outcome of the permission-gated stream acquisition inside
`startRecording`; on denial the `errHandler` closure runs and the
recording session is not set up. -/
def startSpeechToText (cfg : Config) (env : Env) (micPermissionGranted : Bool)
    (s : HookState) : HookState × List Action :=
  if env.recognitionAvailable then
    chromeSpeechRecognition env s
  else if truthyBool cfg.crossBrowser = false then
    (s, [])
  else if micPermissionGranted = false then
    (micPermissionDeniedHandler s, [Action.acquireStream])
  else
    let p1 := if truthyNat cfg.timeout then handleRecordingTimeout cfg s else (s, [])
    let a2 := if p1.1.hasMediaStream then [Action.trackStop] else []
    ({ p1.1 with hasMediaStream := true, isRecording := true },
     [Action.acquireStream] ++ p1.2 ++ a2)

/-- `stopSpeechToText` (lines 151-162): on the fallback path it clears the
recording flag, stops the track, and calls `stopRecording` with a
callback that forwards `continuous: false` to `handleBlobToBase64`. -/
def stopSpeechToText (env : Env) (s : HookState) : HookState × List Action :=
  if env.recognitionAvailable then (s, [Action.recognitionStop])
  else
    ({ s with isRecording := false },
     (if s.hasMediaStream then [Action.trackStop] else []) ++
       [Action.stopRecordingCall true (some false)])

/-- JavaScript `String.prototype.indexOf` for a single character, over the
character list of the string: `-1` when absent. -/
def jsIndexOf : List Char → Char → Int
  | [], _ => -1
  | x :: xs, c =>
    if x = c then 0
    else
      let r := jsIndexOf xs c
      if r = -1 then -1 else r + 1

/-- Lines 185-191: the sample rate sent to the cloud, capped at 48000
(`if (sampleRate && sampleRate > 48000) sampleRate = 48000`). -/
def cappedSampleRate : Option Nat → Option Nat
  | none => none
  | some r => if r != 0 ∧ 48000 < r then some 48000 else some r

/-- Lines 193-207: the request body built in `handleBlobToBase64`: fixed
`LINEAR16` encoding, `en-US` language, capped sample rate, and the data
URL content after the first comma
(`base64data.substr(base64data.indexOf(',') + 1)`). -/
def buildCloudRequest (cfg : Config) (env : Env) (base64data : List Char) :
    CloudRequest :=
  { config :=
      { encoding := "LINEAR16"
        languageCode := "en-US"
        sampleRateHertz := cappedSampleRate env.sampleRate }
    audioContent := base64data.drop (jsIndexOf base64data ',' + 1).toNat
    apiKey := cfg.googleApiKey }

/-- Lines 219-225: append the transcript of the first alternative of the
first result when the response's result list is present and non-empty
(`if (googleCloudJson.results?.length > 0)`). -/
def appendCloudTranscript (resp : CloudResponse) (results : List String) :
    List String :=
  match resp.results with
  | some rs =>
    if 0 < rs.length then
      results ++
        [((rs.headD { alternatives := [] }).alternatives.headD
            { transcript := "" }).transcript]
    else results
  | none => results

/-- The `reader.onloadend` body of `handleBlobToBase64` (lines 182-230):
build the request, fetch, append the transcript from the response, and
restart recording when the forwarded `continuous` flag is true. -/
def handleBlobToBase64 (cfg : Config) (env : Env) (continuous : Bool)
    (base64data : List Char) (resp : CloudResponse) (s : HookState) :
    HookState × List Action :=
  ({ s with results := appendCloudTranscript resp s.results },
   [Action.fetchCloud (buildCloudRequest cfg env base64data)] ++
     (if continuous then [Action.restartRecording] else []))

/-- Modelled from the spec: `stopRecording` lives in `./recorderHelpers`,
which is not among the sources; per the spec the recording helpers
"buffer raw audio and can export it as a waveform-audio blob", so the
helper hands a WAV blob to its callback exactly when `exportWAV` is true
and a callback is present. -/
def stopRecordingExportsWav (exportWAV : Bool) (wavCallbackContinuous : Option Bool) :
    Bool :=
  exportWAV && wavCallbackContinuous.isSome

/-- Events that can reach the fallback session: hark notifications and the
elapse of the scheduled timeout delay. -/
inductive HookEvent where
  | speaking
  | stoppedSpeaking
  | timerElapse
  deriving DecidableEq

/-- Dispatch one event.  A timer elapse runs the scheduled callback only
when the timeout is still pending (a cleared timeout never fires). -/
def stepEvent (cfg : Config) (s : HookState) : HookEvent → HookState × List Action
  | HookEvent.speaking => speakingHandler s
  | HookEvent.stoppedSpeaking => stoppedSpeakingHandler cfg s
  | HookEvent.timerElapse =>
    if s.timeoutScheduled then recordingTimeoutCallback s else (s, [])

/-- Run a sequence of events, concatenating the performed actions. -/
def runEvents (cfg : Config) (s : HookState) : List HookEvent → HookState × List Action
  | [] => (s, [])
  | e :: es =>
    let p := stepEvent cfg s e
    let q := runEvents cfg p.1 es
    (q.1, p.2 ++ q.2)

/-- `new` is `old` untouched or extended by one element at the end. -/
def ExtendsByAtMostOne (old new : List String) : Prop :=
  new = old ∨ ∃ x, new = old ++ [x]

/-- Is this action a `stopRecording` call that exports a WAV? -/
def isWavExportCall : Action → Bool
  | Action.stopRecordingCall true _ => true
  | _ => false

/-- Is this action a cloud fetch? -/
def isFetchCloud : Action → Bool
  | Action.fetchCloud _ => true
  | _ => false

/-- Is this action a stop of the audio track? -/
def isTrackStop : Action → Bool
  | Action.trackStop => true
  | _ => false

/-- Sample config for witnesses. -/
def sampleConfig : Config :=
  { continuous := some true
    crossBrowser := some true
    googleApiKey := some "k"
    timeout := some 5000 }

/-- Sample environment for witnesses: fallback path. -/
def sampleEnv : Env :=
  { recognitionAvailable := false
    getUserMediaSupported := true
    sampleRate := some 44100 }

/-- Sample initial hook state for witnesses. -/
def sampleState : HookState :=
  { isRecording := false
    results := []
    error := ""
    timeoutScheduled := false
    hasMediaStream := false }

/-- Sample state with an active media stream, for witnesses. -/
def sampleRecordingState : HookState :=
  { isRecording := true
    results := ["prev"]
    error := ""
    timeoutScheduled := false
    hasMediaStream := true }

/-- Config with cross-browser mode off, for witnesses. -/
def noCrossConfig : Config :=
  { continuous := none
    crossBrowser := none
    googleApiKey := none
    timeout := none }

/-- Sample cloud response with one result and one alternative. -/
def sampleResponse : CloudResponse :=
  { results := some [{ alternatives := [{ transcript := "hello" }] }] }

theorem jsIndexOf_first (pre post : List Char) (c : Char) (h : c ∉ pre) :
    jsIndexOf (pre ++ c :: post) c = (pre.length : Int) := by
  induction pre with
  | nil => simp [jsIndexOf]
  | cons x xs ih =>
    have hx : x ≠ c := fun e => h (by simp [e])
    have hxs : c ∉ xs := fun hc => h (List.mem_cons_of_mem _ hc)
    have hlen : ((xs.length : Int)) ≠ -1 := by
      have := Int.natCast_nonneg xs.length
      omega
    simp only [List.cons_append, jsIndexOf, List.append_eq]
    rw [if_neg hx, ih hxs, if_neg hlen, List.length_cons]
    push_cast
    ring

theorem cappedSampleRate_some (r : Nat) :
    cappedSampleRate (some r) = some (if 48000 < r then 48000 else r) := by
  by_cases h : 48000 < r
  · have h0 : (r != 0) = true := by
      simp only [bne_iff_ne, ne_eq, decide_eq_true_eq]
      omega
    simp [cappedSampleRate, h, h0]
  · simp [cappedSampleRate, h]

/-- C1: for every cloud transcription response, the handler appends exactly
one entry to the transcript list when the response's result list is
non-empty, namely the transcript of the first alternative of the first
result, and appends nothing when the result list is empty or absent. -/
theorem cloud_response_appends_first_alternative
    (cfg : Config) (env : Env) (cont : Bool) (b64 : List Char)
    (resp : CloudResponse) (s : HookState) :
    (∀ (a : RecognitionAlternative) (altRest : List RecognitionAlternative)
        (rest : List RecognitionResult),
      resp.results = some ({ alternatives := a :: altRest } :: rest) →
      (handleBlobToBase64 cfg env cont b64 resp s).1.results =
        s.results ++ [a.transcript]) ∧
    (resp.results = some [] →
      (handleBlobToBase64 cfg env cont b64 resp s).1.results = s.results) ∧
    (resp.results = none →
      (handleBlobToBase64 cfg env cont b64 resp s).1.results = s.results) := by
  refine ⟨?_, ?_, ?_⟩
  · intro a altRest rest hr
    simp [handleBlobToBase64, appendCloudTranscript, hr]
  · intro hr
    simp [handleBlobToBase64, appendCloudTranscript, hr]
  · intro hr
    simp [handleBlobToBase64, appendCloudTranscript, hr]

theorem cloud_response_appends_first_alternative_witness :
    sampleResponse.results =
      some ({ alternatives := { transcript := "hello" } :: [] } :: []) ∧
    (handleBlobToBase64 sampleConfig sampleEnv false [] sampleResponse
        sampleState).1.results = sampleState.results ++ ["hello"] :=
  ⟨rfl,
   (cloud_response_appends_first_alternative sampleConfig sampleEnv false []
       sampleResponse sampleState).1 { transcript := "hello" } [] [] rfl⟩

/-- C3: when the native recognizer is unavailable and the `crossBrowser`
option is falsy, `startSpeechToText` is a no-op: the state (recording
flag, transcript list, error string) is unchanged and no external action
(stream acquisition, recording, cloud call) is performed. -/
theorem start_noop_without_recognition_or_crossbrowser
    (cfg : Config) (env : Env) (g : Bool) (s : HookState)
    (hrec : env.recognitionAvailable = false)
    (hcb : truthyBool cfg.crossBrowser = false) :
    startSpeechToText cfg env g s = (s, []) := by
  simp [startSpeechToText, hrec, hcb]

theorem start_noop_without_recognition_or_crossbrowser_witness :
    sampleEnv.recognitionAvailable = false ∧
    truthyBool noCrossConfig.crossBrowser = false ∧
    startSpeechToText noCrossConfig sampleEnv true sampleState =
      (sampleState, []) :=
  ⟨rfl, rfl,
   start_noop_without_recognition_or_crossbrowser noCrossConfig sampleEnv true
     sampleState rfl rfl⟩

/-- C5: every request sent to the remote transcription endpoint carries
encoding `LINEAR16`, the base64 payload that follows the first comma of
the data URL, and a sample rate equal to the audio context's rate capped
at 48000. -/
theorem cloud_request_format
    (cfg : Config) (env : Env) (b64 : List Char) :
    (buildCloudRequest cfg env b64).config.encoding = "LINEAR16" ∧
    (∀ r : Nat, env.sampleRate = some r →
      (buildCloudRequest cfg env b64).config.sampleRateHertz =
        some (if 48000 < r then 48000 else r)) ∧
    (∀ pre post : List Char, ',' ∉ pre →
      (buildCloudRequest cfg env (pre ++ ',' :: post)).audioContent = post) := by
  refine ⟨rfl, ?_, ?_⟩
  · intro r hr
    simp [buildCloudRequest, hr, cappedSampleRate_some]
  · intro pre post hpre
    have hidx := jsIndexOf_first pre post ',' hpre
    have htn : ((pre.length : Int) + 1).toNat = pre.length + 1 := by omega
    calc (buildCloudRequest cfg env (pre ++ ',' :: post)).audioContent
        = (pre ++ ',' :: post).drop (pre.length + 1) := by
          simp [buildCloudRequest, hidx, htn]
      _ = ((pre ++ [',']) ++ post).drop (pre ++ [',']).length := by simp
      _ = post := List.drop_left _ _

theorem cloud_request_format_witness :
    sampleEnv.sampleRate = some 44100 ∧
    (',' ∉ (['d', 'a'] : List Char)) ∧
    (buildCloudRequest sampleConfig sampleEnv
        (['d', 'a'] ++ ',' :: ['x'])).config.encoding = "LINEAR16" ∧
    (buildCloudRequest sampleConfig sampleEnv
        (['d', 'a'] ++ ',' :: ['x'])).config.sampleRateHertz =
      some (if 48000 < 44100 then 48000 else 44100) ∧
    (buildCloudRequest sampleConfig sampleEnv
        (['d', 'a'] ++ ',' :: ['x'])).audioContent = ['x'] :=
  ⟨rfl, by decide,
   (cloud_request_format sampleConfig sampleEnv (['d', 'a'] ++ ',' :: ['x'])).1,
   (cloud_request_format sampleConfig sampleEnv
       (['d', 'a'] ++ ',' :: ['x'])).2.1 44100 rfl,
   (cloud_request_format sampleConfig sampleEnv
       (['d', 'a'] ++ ',' :: ['x'])).2.2 ['d', 'a'] ['x'] (by decide)⟩

theorem startSpeechToText_results (cfg : Config) (env : Env) (g : Bool)
    (s : HookState) : (startSpeechToText cfg env g s).1.results = s.results := by
  unfold startSpeechToText chromeSpeechRecognition micPermissionDeniedHandler
    handleRecordingTimeout
  split_ifs <;> rfl

theorem appendCloudTranscript_extends (resp : CloudResponse) (rs : List String) :
    ExtendsByAtMostOne rs (appendCloudTranscript resp rs) := by
  unfold appendCloudTranscript ExtendsByAtMostOne
  match resp.results with
  | none => exact Or.inl rfl
  | some rl =>
    dsimp only
    by_cases h : 0 < rl.length
    · rw [if_pos h]
      exact Or.inr ⟨_, rfl⟩
    · rw [if_neg h]
      exact Or.inl rfl

/-- C4: the transcript list is append-only in insertion order: every
handler of the hook either leaves `results` unchanged or extends it by
one element at the end. -/
theorem results_append_only
    (cfg : Config) (env : Env) (g cont : Bool) (b64 : List Char)
    (resp : CloudResponse) (er : Option (List RecognitionResult))
    (s : HookState) (e : HookEvent) :
    ExtendsByAtMostOne s.results (mountEffect cfg env s).results ∧
    ExtendsByAtMostOne s.results (chromeSpeechRecognition env s).1.results ∧
    ExtendsByAtMostOne s.results (recognitionOnResult er s).results ∧
    ExtendsByAtMostOne s.results (recognitionOnAudioStart s).results ∧
    ExtendsByAtMostOne s.results (recognitionOnAudioEnd s).results ∧
    ExtendsByAtMostOne s.results (micPermissionDeniedHandler s).results ∧
    ExtendsByAtMostOne s.results (startSpeechToText cfg env g s).1.results ∧
    ExtendsByAtMostOne s.results (stopSpeechToText env s).1.results ∧
    ExtendsByAtMostOne s.results (handleRecordingTimeout cfg s).1.results ∧
    ExtendsByAtMostOne s.results (recordingTimeoutCallback s).1.results ∧
    ExtendsByAtMostOne s.results (speakingHandler s).1.results ∧
    ExtendsByAtMostOne s.results (stoppedSpeakingHandler cfg s).1.results ∧
    ExtendsByAtMostOne s.results
      (handleBlobToBase64 cfg env cont b64 resp s).1.results ∧
    ExtendsByAtMostOne s.results (stepEvent cfg s e).1.results := by
  refine ⟨?_, ?_, ?_, Or.inl rfl, Or.inl rfl, Or.inl rfl, ?_, ?_, Or.inl rfl,
    Or.inl rfl, Or.inl rfl, ?_, ?_, ?_⟩
  · unfold mountEffect
    split_ifs <;> exact Or.inl rfl
  · unfold chromeSpeechRecognition
    split_ifs <;> exact Or.inl rfl
  · unfold recognitionOnResult
    match er with
    | none => exact Or.inl rfl
    | some rl => exact Or.inr ⟨_, rfl⟩
  · rw [startSpeechToText_results]
    exact Or.inl rfl
  · unfold stopSpeechToText
    split_ifs <;> exact Or.inl rfl
  · exact Or.inl rfl
  · exact appendCloudTranscript_extends resp s.results
  · unfold stepEvent
    match e with
    | HookEvent.speaking => exact Or.inl rfl
    | HookEvent.stoppedSpeaking => exact Or.inl rfl
    | HookEvent.timerElapse =>
      dsimp only
      split_ifs <;> exact Or.inl rfl

/-- C2: with a configured (truthy) timeout, the fallback start schedules
the auto-stop; firing a pending auto-stop clears the recording flag and
stops the active track; a speaking event clears the pending auto-stop
and a later timer elapse is then a no-op; a non-pending timer never
fires. -/
theorem timeout_autostop
    (cfg : Config) (env : Env) (s : HookState) (t : Nat)
    (hrec : env.recognitionAvailable = false)
    (hcb : truthyBool cfg.crossBrowser = true)
    (ht : cfg.timeout = some t) (ht0 : t ≠ 0) :
    (Action.scheduleTimeout t ∈ (startSpeechToText cfg env true s).2 ∧
      (startSpeechToText cfg env true s).1.timeoutScheduled = true) ∧
    (∀ s1 : HookState, s1.timeoutScheduled = true → s1.hasMediaStream = true →
      (stepEvent cfg s1 HookEvent.timerElapse).1.isRecording = false ∧
      Action.trackStop ∈ (stepEvent cfg s1 HookEvent.timerElapse).2) ∧
    (∀ s1 : HookState,
      (stepEvent cfg s1 HookEvent.speaking).1.timeoutScheduled = false ∧
      Action.clearRecordingTimeout ∈ (stepEvent cfg s1 HookEvent.speaking).2) ∧
    (∀ s1 : HookState,
      runEvents cfg s1 [HookEvent.speaking, HookEvent.timerElapse] =
        ((speakingHandler s1).1, [Action.clearRecordingTimeout])) ∧
    (∀ s1 : HookState, s1.timeoutScheduled = false →
      stepEvent cfg s1 HookEvent.timerElapse = (s1, [])) := by
  have htn : truthyNat cfg.timeout = true := by
    simp [truthyNat, ht, bne_iff_ne, ht0]
  refine ⟨?_, ?_, ?_, ?_, ?_⟩
  · constructor
    · simp [startSpeechToText, hrec, hcb, handleRecordingTimeout, ht, truthyNat,
        bne_iff_ne, ht0]
    · simp [startSpeechToText, hrec, hcb, handleRecordingTimeout, ht, truthyNat,
        bne_iff_ne, ht0]
  · intro s1 hts hms
    constructor
    · simp [stepEvent, hts, recordingTimeoutCallback]
    · simp [stepEvent, hts, recordingTimeoutCallback, hms]
  · intro s1
    exact ⟨rfl, by simp [stepEvent, speakingHandler]⟩
  · intro s1
    simp [runEvents, stepEvent, speakingHandler]
  · intro s1 hts
    simp [stepEvent, hts]

theorem timeout_autostop_witness :
    sampleEnv.recognitionAvailable = false ∧
    truthyBool sampleConfig.crossBrowser = true ∧
    sampleConfig.timeout = some 5000 ∧
    (5000 : Nat) ≠ 0 ∧
    (Action.scheduleTimeout 5000 ∈
        (startSpeechToText sampleConfig sampleEnv true sampleState).2 ∧
      (startSpeechToText sampleConfig sampleEnv true
          sampleState).1.timeoutScheduled = true) :=
  ⟨rfl, rfl, rfl, by decide,
   (timeout_autostop sampleConfig sampleEnv sampleState 5000 rfl rfl rfl
       (by decide)).1⟩

/-- C6: the stopped-speaking handler hands the hook's truthy `continuous`
flag (and `exportWAV: true`) to the `stopRecording` callback, and the
response handler restarts recording exactly when that forwarded flag is
true. -/
theorem continuous_restart_iff
    (cfg : Config) (env : Env) (cont : Bool) (b64 : List Char)
    (resp : CloudResponse) (s s1 : HookState) :
    (Action.stopRecordingCall true (some (truthyBool cfg.continuous)) ∈
      (stoppedSpeakingHandler cfg s).2) ∧
    (∀ (ew : Bool) (oc : Option Bool),
      Action.stopRecordingCall ew oc ∈ (stoppedSpeakingHandler cfg s).2 →
      ew = true ∧ oc = some (truthyBool cfg.continuous)) ∧
    (Action.restartRecording ∈ (handleBlobToBase64 cfg env cont b64 resp s1).2 ↔
      cont = true) := by
  refine ⟨?_, ?_, ?_⟩
  · unfold stoppedSpeakingHandler
    split_ifs <;> simp
  · intro ew oc hmem
    unfold stoppedSpeakingHandler at hmem
    split_ifs at hmem <;> simp_all
  · unfold handleBlobToBase64
    constructor
    · intro hmem
      by_cases hc : cont = true
      · exact hc
      · simp [hc] at hmem
    · intro hc
      simp [hc]

theorem continuous_restart_iff_witness :
    (Action.stopRecordingCall true (some (truthyBool sampleConfig.continuous)) ∈
      (stoppedSpeakingHandler sampleConfig sampleRecordingState).2) ∧
    (Action.stopRecordingCall true (some true) ∈
      (stoppedSpeakingHandler sampleConfig sampleRecordingState).2) ∧
    ((true : Bool) = true ∧ some true = some (truthyBool sampleConfig.continuous)) ∧
    (Action.restartRecording ∈
        (handleBlobToBase64 sampleConfig sampleEnv true [] sampleResponse
          sampleState).2 ↔
      (true : Bool) = true) :=
  ⟨(continuous_restart_iff sampleConfig sampleEnv true [] sampleResponse
      sampleRecordingState sampleState).1,
   by decide,
   (continuous_restart_iff sampleConfig sampleEnv true [] sampleResponse
      sampleRecordingState sampleState).2.1 true (some true) (by decide),
   (continuous_restart_iff sampleConfig sampleEnv true [] sampleResponse
      sampleRecordingState sampleState).2.2⟩

/-- C7: for a stopped-speaking event with an active media stream, the
handler clears the recording flag, stops the audio track exactly once,
and issues exactly one WAV-exporting `stopRecording` call. -/
theorem track_stopped_once_per_stop_event
    (cfg : Config) (s : HookState) (h : s.hasMediaStream = true) :
    (stoppedSpeakingHandler cfg s).2.countP isTrackStop = 1 ∧
    (stoppedSpeakingHandler cfg s).2.countP isWavExportCall = 1 ∧
    (stoppedSpeakingHandler cfg s).1.isRecording = false := by
  refine ⟨?_, ?_, rfl⟩
  · simp [stoppedSpeakingHandler, h, List.countP_cons, List.countP_nil,
      isTrackStop]
  · simp [stoppedSpeakingHandler, h, List.countP_cons, List.countP_nil,
      isWavExportCall]

theorem track_stopped_once_per_stop_event_witness :
    sampleRecordingState.hasMediaStream = true ∧
    ((stoppedSpeakingHandler sampleConfig sampleRecordingState).2.countP
        isTrackStop = 1 ∧
      (stoppedSpeakingHandler sampleConfig sampleRecordingState).2.countP
        isWavExportCall = 1 ∧
      (stoppedSpeakingHandler sampleConfig
          sampleRecordingState).1.isRecording = false) :=
  ⟨rfl, track_stopped_once_per_stop_event sampleConfig sampleRecordingState rfl⟩

/-- C8: the error string takes the descriptive messages of the source:
on mount, the recognition-unsupported message when the native recognizer
is unavailable with `crossBrowser` falsy, overwritten by the getUserMedia
message when `getUserMedia` is unsupported (last write wins); a denied
microphone permission sets the permission message. -/
theorem error_reporting
    (cfg : Config) (env : Env) (s : HookState) :
    (truthyBool cfg.crossBrowser = false → env.recognitionAvailable = false →
      env.getUserMediaSupported = true →
      (mountEffect cfg env s).error =
        "Speech Recognition API is only available on Chrome") ∧
    (env.getUserMediaSupported = false →
      (mountEffect cfg env s).error =
        "getUserMedia is not supported on this device/browser :(") ∧
    (micPermissionDeniedHandler s).error = "Microphone permission was denied" := by
  refine ⟨?_, ?_, rfl⟩
  · intro hcb hrec hgum
    simp [mountEffect, hcb, hrec, hgum]
  · intro hgum
    simp [mountEffect, hgum]

theorem error_reporting_witness :
    (truthyBool noCrossConfig.crossBrowser = false ∧
      sampleEnv.recognitionAvailable = false ∧
      sampleEnv.getUserMediaSupported = true ∧
      (mountEffect noCrossConfig sampleEnv sampleState).error =
        "Speech Recognition API is only available on Chrome") ∧
    (({ sampleEnv with getUserMediaSupported := false } : Env).getUserMediaSupported
        = false ∧
      (mountEffect noCrossConfig { sampleEnv with getUserMediaSupported := false }
          sampleState).error =
        "getUserMedia is not supported on this device/browser :(") ∧
    (micPermissionDeniedHandler sampleState).error =
      "Microphone permission was denied" :=
  ⟨⟨rfl, rfl, rfl,
    (error_reporting noCrossConfig sampleEnv sampleState).1 rfl rfl rfl⟩,
   ⟨rfl,
    (error_reporting noCrossConfig { sampleEnv with getUserMediaSupported := false }
        sampleState).2.1 rfl⟩,
   (error_reporting noCrossConfig sampleEnv sampleState).2.2⟩

/-- C9: a manual `stopSpeechToText` on the fallback path always forwards
`continuous: false` to the response handler, so the restart branch is
never taken for a manual stop. -/
theorem manual_stop_never_restarts
    (cfg : Config) (env : Env) (b64 : List Char) (resp : CloudResponse)
    (s s1 : HookState) (hrec : env.recognitionAvailable = false) :
    (Action.stopRecordingCall true (some false) ∈ (stopSpeechToText env s).2) ∧
    (∀ (ew : Bool) (oc : Option Bool),
      Action.stopRecordingCall ew oc ∈ (stopSpeechToText env s).2 →
      oc = some false) ∧
    Action.restartRecording ∉ (handleBlobToBase64 cfg env false b64 resp s1).2 := by
  refine ⟨?_, ?_, ?_⟩
  · unfold stopSpeechToText
    rw [if_neg (by simp [hrec])]
    split_ifs <;> simp
  · intro ew oc hmem
    unfold stopSpeechToText at hmem
    rw [if_neg (by simp [hrec])] at hmem
    split_ifs at hmem <;> simp_all
  · simp [handleBlobToBase64]

theorem manual_stop_never_restarts_witness :
    sampleEnv.recognitionAvailable = false ∧
    (Action.stopRecordingCall true (some false) ∈
      (stopSpeechToText sampleEnv sampleRecordingState).2) :=
  ⟨rfl,
   (manual_stop_never_restarts sampleConfig sampleEnv [] sampleResponse
       sampleRecordingState sampleState rfl).1⟩

/-- C10: the timeout auto-stop discards the captured audio: its
`stopRecording` call has `exportWAV: false` and no callback, so no WAV is
exported, no cloud fetch is performed, and the transcript list is
unchanged. -/
theorem timeout_discards_audio (s : HookState) :
    (recordingTimeoutCallback s).1.results = s.results ∧
    (recordingTimeoutCallback s).2.countP isFetchCloud = 0 ∧
    (recordingTimeoutCallback s).2.countP isWavExportCall = 0 ∧
    Action.stopRecordingCall false none ∈ (recordingTimeoutCallback s).2 ∧
    stopRecordingExportsWav false none = false := by
  refine ⟨rfl, ?_, ?_, ?_, rfl⟩
  · unfold recordingTimeoutCallback
    split_ifs <;>
      simp [List.countP_cons, List.countP_nil, isFetchCloud]
  · unfold recordingTimeoutCallback
    split_ifs <;>
      simp [List.countP_cons, List.countP_nil, isWavExportCall]
  · unfold recordingTimeoutCallback
    split_ifs <;> simp

end SpeechToText
